import Mathlib

/-!
Shallow embedding, in Lean 4, of the connection-establishment core of the
moproxy transparent TCP proxy (src/client.rs and src/main.rs), together with
theorems deciding the specification claims about it.

The repository modules `client/read.rs`, `client/tls.rs`, `client/connect.rs`,
`tcp.rs` and the `proxy`/`monitor` crates are not part of the given sources;
where a claim depends on them they are either taken as parameters (the
ClientHello parser) or modelled from the specification text, as marked on each
definition.
-/

namespace Moproxy

/-- Embeds `proxy::Destination`: a target address, either a literal IP (v4 or
v6) with a port or a hostname with a port. -/
inductive Host
  | ipv4 : Nat → Host
  | ipv6 : Nat → Host
  | name : String → Host
deriving DecidableEq, Repr

/-- Target address with port, as in `proxy::Destination`. -/
structure Destination where
  host : Host
  port : Nat
deriving DecidableEq, Repr

/-- Embeds the result type of `tls::parse_client_hello`: the fields of a parsed
TLS ClientHello that `retrive_dest` consumes. -/
structure ClientHello where
  server_name : Option String
  early_data : Bool
deriving DecidableEq, Repr

/-- Embeds `NewClient` (src/client.rs lines 25-32).  The `left` socket and the
reactor handle carry no data relevant to the claims; `src` is the peer address
(opaque), `list` is the `ServerList` snapshot, kept as the list of server
tags. -/
structure NewClient where
  src : Nat
  dest : Destination
  list : List String
deriving DecidableEq, Repr

/-- Embeds `NewClientWithData` (src/client.rs lines 34-39). -/
structure NewClientWithData where
  client : NewClient
  pending_data : Option (List Nat)
  allow_parallel : Bool
deriving DecidableEq, Repr

/-- Outcome of the closure body of `NewClient::retrive_dest`: the (possibly
rewritten) destination, the duplication-safety flag and the buffered prefix. -/
structure HelloOutcome where
  dest : Destination
  allow_parallel : Bool
  pending_data : Option (List Nat)
deriving DecidableEq, Repr

/-- Embeds the closure body of `NewClient::retrive_dest` (src/client.rs lines
94-118): given the destination and the bytes delivered by the timed read
(buffer `data`, byte count `len`), compute the new destination, the
`allow_parallel` flag and the `pending_data` buffer.  `tls::parse_client_hello`
is not among the given sources, so the parser is an arbitrary parameter
`parse`; the claims quantify over its outcome. -/
def retriveDestOk (parse : List Nat → Except String ClientHello)
    (dest : Destination) (data : List Nat) (len : Nat) : HelloOutcome :=
  if len = 0 then
    { dest, allow_parallel := false, pending_data := none }
  else
    let data := data.take len
    match parse data with
    | .error _ =>
        { dest, allow_parallel := false, pending_data := some data }
    | .ok hello =>
        let dest :=
          match hello.server_name with
          | some hostname => { host := Host.name hostname, port := dest.port }
          | none => dest
        { dest, allow_parallel := true, pending_data := some data }

/-- Capacity of the hello-peek buffer, `vec![0u8; 2048]` (src/client.rs line
93). -/
def helloBufCapacity : Nat := 2048

/-- The hello-peek buffer itself, `vec![0u8; 2048]`. -/
def helloBuf : List Nat := List.replicate helloBufCapacity 0

/-- Deadline of the hello peek, `Duration::from_millis(500)` (src/client.rs
line 89), in milliseconds. -/
def helloWaitMillis : Nat := 500

/-- Network event seen by the timed prefix read: some bytes arrive, the
deadline passes with no byte, or the socket fails. -/
inductive ReadEvent
  | bytes : List Nat → ReadEvent
  | timeout : ReadEvent
  | ioFailure : String → ReadEvent
deriving DecidableEq, Repr

/-- Modelled from the spec: `read::read_with_timeout` (module `client/read`,
not among the given sources).  "Read from the client socket into a buffer of
capacity 2048 with a deadline of 500 ms ... Return `(remaining_socket,
bytes_read)` where `bytes_read ∈ [0, 2048]`.  A zero-byte return (including
due to timeout before any byte arrives) is not an error ... Any error other
than timeout with zero bytes read propagates."  The returned pair is the
filled buffer and the byte count. -/
def read_with_timeout (buf : List Nat) (_waitMillis : Nat) (ev : ReadEvent) :
    Except String (List Nat × Nat) :=
  match ev with
  | .bytes data =>
      let n := min data.length buf.length
      .ok (data.take n ++ buf.drop n, n)
  | .timeout => .ok (buf, 0)
  | .ioFailure e => .error e

/-- Embeds `NewClient::retrive_dest` (src/client.rs lines 81-132): run the
timed prefix read with the 2048-byte buffer and the 500 ms deadline, then the
closure body; a read error is logged and drops the client (`None`). -/
def retriveDest (parse : List Nat → Except String ClientHello)
    (c : NewClient) (ev : ReadEvent) : Option NewClientWithData :=
  match read_with_timeout helloBuf helloWaitMillis ev with
  | .error _ => none
  | .ok (data, len) =>
      let o := retriveDestOk parse c.dest data len
      some { client := { c with dest := o.dest },
             pending_data := o.pending_data,
             allow_parallel := o.allow_parallel }

/-- Arguments that `NewClient::connect_server` hands to the race dispatcher
`connect::try_connect_all` (src/client.rs lines 148-155).  The destination and
list are passed through unchanged, so only the three decision-carrying
arguments are recorded. -/
structure ConnectArgs where
  n_parallel : Nat
  wait_response : Bool
  pending_data : Option (List Nat)
deriving DecidableEq, Repr

/-- Embeds the inherent method `NewClient::connect_server` (src/client.rs
lines 134-168): it forwards `n_parallel`, `wait_response` and `pending_data`
verbatim to `try_connect_all`. -/
def NewClient.connect_server (_c : NewClient) (n_parallel : Nat)
    (wait_response : Bool) (pending_data : Option (List Nat)) : ConnectArgs :=
  { n_parallel, wait_response, pending_data }

/-- Embeds `impl Connectable for NewClient` (src/client.rs lines 171-175):
`self.connect_server(1, false, None)`, ignoring the requested parallelism. -/
def NewClient.connectable (c : NewClient) (_n_parallel : Nat) : ConnectArgs :=
  c.connect_server 1 false none

/-- Embeds `impl Connectable for NewClientWithData` (src/client.rs lines
177-191): clamp the parallelism by the list length when `allow_parallel`,
force 1 otherwise, then `client.connect_server(n_parallel, true,
pending_data)`. -/
def NewClientWithData.connectable (d : NewClientWithData) (n_parallel : Nat) :
    ConnectArgs :=
  let n_parallel :=
    if d.allow_parallel then min d.client.list.length n_parallel else 1
  d.client.connect_server n_parallel true d.pending_data

/-- Byte counters reported by the splice, `tx` client→upstream and `rx`
upstream→client. -/
structure PipeAmt where
  tx : Nat
  rx : Nat
deriving DecidableEq, Repr

/-- Observable operations performed by `ConnectedClient::serve`, in order:
socket-option calls, the warn log on keepalive failure, the accounting hooks
and the splice itself. -/
inductive ServeEvent
  | setKeepalive (onClientSide : Bool) (secs : Nat)
  | warnKeepalive
  | connOpen (tag : String)
  | pipeCopy
  | connClose (tag : String) (error : Bool)
deriving DecidableEq, Repr

/-- Keepalive idle timer set by `ConnectedClient::serve`,
`Duration::from_secs(300)` (src/client.rs line 202), in seconds. -/
def keepaliveSecs : Nat := 300

/-- Models `Result::and` on the two `set_keepalive` calls (src/client.rs lines
203-206): the first error wins, otherwise the second result. -/
def resultAnd (a b : Except String Unit) : Except String Unit :=
  match a with
  | .error e => .error e
  | .ok _ => b

/-- True exactly when an `Except` is an error. -/
def exceptIsErr {ε α : Type} : Except ε α → Bool
  | .error _ => true
  | .ok _ => false

/-- Embeds `ConnectedClient::serve` (src/client.rs lines 194-226) as the
sequence of observable operations it performs: set keepalive on both sockets
(warn when that fails, without aborting), record `conn_open` on the chosen
server, run the splice, then record `conn_close` with the error flag of the
splice result.  `kaLeft`/`kaRight` are the results of the two `set_keepalive`
calls and `pipeResult` the outcome of `proxy::copy::pipe` (module not among
the given sources; per the spec it yields the transferred byte counts on
success and an I/O error otherwise). -/
def ConnectedClient.serve (tag : String) (kaLeft kaRight : Except String Unit)
    (pipeResult : Except String PipeAmt) : List ServeEvent :=
  [ServeEvent.setKeepalive true keepaliveSecs,
   ServeEvent.setKeepalive false keepaliveSecs]
  ++ (match resultAnd kaLeft kaRight with
      | .error _ => [ServeEvent.warnKeepalive]
      | .ok _ => [])
  ++ [ServeEvent.connOpen tag, ServeEvent.pipeCopy]
  ++ (match pipeResult with
      | .ok _ => [ServeEvent.connClose tag false]
      | .error _ => [ServeEvent.connClose tag true])

/-- Selects the accounting-relevant events of a serve trace: `conn_open`, the
splice itself, and `conn_close`. -/
def isAccountingEvent : ServeEvent → Bool
  | .connOpen _ => true
  | .pipeCopy => true
  | .connClose _ _ => true
  | _ => false

/-- Modelled from the spec: `proxy::piping` of the older entry point (the
`proxy` module is not among the given sources).  The copy moves
`transferred = (tx, rx)` bytes and then either completes, yielding the counts,
or hits an I/O error, yielding an `io::Error` that carries no counts. -/
def pipingResult (transferred : Nat × Nat) (errored : Bool) :
    Except String (Nat × Nat) :=
  if errored then .error "io error" else .ok transferred

/-- Embeds the accounting close call of the older entry point (src/main.rs
lines 100-113): `update_stats_conn_close(idx, tx, rx)` on `Ok((tx, rx))` and
`update_stats_conn_close(idx, 0, 0)` on `Err(e)`.  The returned pair is the
byte counters handed to accounting. -/
def oldServeClose (result : Except String (Nat × Nat)) : Nat × Nat :=
  match result with
  | .ok (tx, rx) => (tx, rx)
  | .error _ => (0, 0)

/-- Embeds the per-attempt timeout of the older entry point's
`connect_server` (src/main.rs lines 187-191), in milliseconds:
`max(Duration::from_secs(3), delay * 2)` when the monitor supplied a recent
latency, `Duration::from_secs(3)` otherwise. -/
def attemptWait (delay : Option Nat) : Nat :=
  match delay with
  | some d => max 3000 (d * 2)
  | none => 3000

/-- A socket address as recovered by the original-destination accessors:
either family with address and port. -/
inductive SockAddr
  | v4 (addr port : Nat)
  | v6 (addr port : Nat)
deriving DecidableEq, Repr

/-- Address family of an accepted socket. -/
inductive Family
  | v4
  | v6
deriving DecidableEq, Repr

/-- The data of an accepted client socket that `NewClient::from_socket`
consults: the peer address and the results of the two original-destination
getsockopt queries (`tcp::get_original_dest` / `tcp::get_original_dest6`,
module `tcp` not among the given sources; only their results are needed).
The `family` field records the socket's own address family, which the code
never inspects (the TODO at src/client.rs line 63). -/
structure SocketInfo where
  family : Family
  peerAddr : Except String Nat
  origDest4 : Except String (Nat × Nat)
  origDest6 : Except String (Nat × Nat)
deriving Repr

/-- Conversion of a recovered `SocketAddr` into a `Destination`
(`dest.into()` at src/client.rs line 72). -/
def destOfSockAddr : SockAddr → Destination
  | .v4 a p => { host := Host.ipv4 a, port := p }
  | .v6 a p => { host := Host.ipv6 a, port := p }

/-- Embeds `NewClient::from_socket` (src/client.rs lines 56-77): prefer the
IPv4 original destination, fall back to IPv6 when IPv4 fails
(`dest4.or_else(|_| dest6)`), join with the peer address; when no destination
(or no peer address) can be obtained the failure is logged at warn level and
the client is dropped (`None`). -/
def NewClient.from_socket (s : SocketInfo) (list : List String) :
    Option NewClient :=
  let dest4 := s.origDest4.map (fun a => SockAddr.v4 a.1 a.2)
  let dest6 := s.origDest6.map (fun a => SockAddr.v6 a.1 a.2)
  let destRes : Except String SockAddr :=
    match dest4 with
    | .ok d => .ok d
    | .error _ => dest6
  match s.peerAddr, destRes with
  | .ok src, .ok d => some { src, dest := destOfSockAddr d, list }
  | _, _ => none

/-! Sample concrete values, used by the witness theorems. -/

/-- A sample parsed ClientHello carrying an SNI hostname. -/
def sampleHello : ClientHello :=
  { server_name := some "example.com", early_data := false }

/-- A sample parser outcome: every prefix parses to `sampleHello`. -/
def sampleParse : List Nat → Except String ClientHello :=
  fun _ => .ok sampleHello

/-- A sample numeric destination, 1.2.3.4:443. -/
def sampleDest : Destination := { host := Host.ipv4 16909060, port := 443 }

/-- A sample accepted client with two upstreams in the snapshot. -/
def sampleClient : NewClient :=
  { src := 7, dest := sampleDest, list := ["a", "b"] }

/-- C1: for every client whose peeked prefix parses as a valid TLS
ClientHello, `retrive_dest` sets `allow_parallel` to true and, when the parse
yields a `server_name`, replaces the numeric destination with the pair
(hostname, original port); for every client whose prefix fails to parse or
whose read returned zero bytes, `allow_parallel` is false and the destination
is left unchanged. -/
theorem retrive_dest_parse_cases (parse : List Nat → Except String ClientHello)
    (dest : Destination) (data : List Nat) (len : Nat) :
    (∀ hello, len ≠ 0 → parse (data.take len) = .ok hello →
      (retriveDestOk parse dest data len).allow_parallel = true ∧
      ∀ hostname, hello.server_name = some hostname →
        (retriveDestOk parse dest data len).dest =
          { host := Host.name hostname, port := dest.port }) ∧
    (len = 0 →
      (retriveDestOk parse dest data len).allow_parallel = false ∧
      (retriveDestOk parse dest data len).dest = dest) ∧
    (∀ e, parse (data.take len) = .error e →
      (retriveDestOk parse dest data len).allow_parallel = false ∧
      (retriveDestOk parse dest data len).dest = dest) := by
  refine ⟨?_, ?_, ?_⟩
  · intro hello h0 hp
    constructor
    · simp [retriveDestOk, h0, hp]
    · intro hostname hname
      simp [retriveDestOk, h0, hp, hname]
  · intro h0
    simp [retriveDestOk, h0]
  · intro e hp
    by_cases h0 : len = 0
    · simp [retriveDestOk, h0]
    · simp [retriveDestOk, h0, hp]

/-- Witness for C1: a 3-byte prefix parsed as a ClientHello with SNI
"example.com" yields `allow_parallel = true` and the hostname destination at
the original port 443. -/
theorem retrive_dest_parse_cases_witness :
    (retriveDestOk sampleParse sampleDest [22, 3, 1] 3).allow_parallel = true ∧
    (retriveDestOk sampleParse sampleDest [22, 3, 1] 3).dest =
      { host := Host.name "example.com", port := 443 } := by
  have h := (retrive_dest_parse_cases sampleParse sampleDest [22, 3, 1] 3).1
    sampleHello (by decide) rfl
  exact ⟨h.1, h.2 "example.com" rfl⟩

/-- C2: `pending_data` is Some exactly when at least one byte was read, and
when Some it equals the read buffer truncated to the byte count returned;
moreover `allow_parallel = true` implies `pending_data` is Some and the
ClientHello parse succeeded. -/
theorem retrive_dest_pending_invariant
    (parse : List Nat → Except String ClientHello)
    (dest : Destination) (data : List Nat) (len : Nat) :
    ((retriveDestOk parse dest data len).pending_data.isSome ↔ len ≠ 0) ∧
    (∀ l, (retriveDestOk parse dest data len).pending_data = some l →
      l = data.take len) ∧
    ((retriveDestOk parse dest data len).allow_parallel = true →
      (retriveDestOk parse dest data len).pending_data.isSome = true ∧
      ∃ hello, parse (data.take len) = .ok hello) := by
  by_cases h0 : len = 0
  · simp [retriveDestOk, h0]
  · cases hp : parse (data.take len) <;>
      simp [retriveDestOk, h0, hp]

/-- Witness for C2: on the same 3-byte prefix, `pending_data` equals the
truncated buffer and the parse succeeded. -/
theorem retrive_dest_pending_invariant_witness :
    [22, 3, 1] = List.take 3 [22, 3, 1] ∧
    ∃ hello, sampleParse (List.take 3 [22, 3, 1]) = .ok hello := by
  have h := retrive_dest_pending_invariant sampleParse sampleDest [22, 3, 1] 3
  exact ⟨h.2.1 [22, 3, 1] rfl, (h.2.2 rfl).2⟩

/-- C3: the parallelism handed to the dispatcher is
`min(n_parallel, list.len())` when `allow_parallel` is true and exactly 1
otherwise. -/
theorem connectable_with_data_parallelism (d : NewClientWithData)
    (n_parallel : Nat) :
    (NewClientWithData.connectable d n_parallel).n_parallel =
      if d.allow_parallel then min n_parallel d.client.list.length else 1 := by
  cases h : d.allow_parallel <;>
    simp [NewClientWithData.connectable, NewClient.connect_server, h,
      Nat.min_comm]

/-- C8: the single-attempt path for a plain `NewClient` invokes the dispatcher
with one attempt, `wait_response = false` and no prefix, while the
`NewClientWithData` path invokes it with `wait_response = true`, whatever the
value of `allow_parallel`. -/
theorem connect_paths_wait_response :
    (∀ (c : NewClient) (n : Nat),
      NewClient.connectable c n =
        { n_parallel := 1, wait_response := false, pending_data := none }) ∧
    (∀ (d : NewClientWithData) (n : Nat),
      (NewClientWithData.connectable d n).wait_response = true ∧
      (NewClientWithData.connectable d n).pending_data = d.pending_data) := by
  refine ⟨fun c n => rfl, fun d n => ⟨rfl, rfl⟩⟩

/-- C4: the hello peek reads into a buffer of capacity exactly 2048 bytes
under a 500 ms deadline; a zero-byte result (including timeout before any
byte) is not an error and the client proceeds with `allow_parallel = false`,
destination and prefix unchanged, while any read error propagates and the
client is dropped. -/
theorem hello_peek_contract :
    helloBuf.length = 2048 ∧ helloWaitMillis = 500 ∧
    (∀ parse c ev data,
      read_with_timeout helloBuf helloWaitMillis ev = .ok (data, 0) →
      retriveDest parse c ev =
        some { client := c, pending_data := none, allow_parallel := false }) ∧
    (∀ parse c e, retriveDest parse c (ReadEvent.ioFailure e) = none) := by
  refine ⟨by simp only [helloBuf, List.length_replicate, helloBufCapacity],
    rfl, ?_, fun parse c e => rfl⟩
  intro parse c ev data h
  unfold retriveDest
  rw [h]
  simp [retriveDestOk]

/-- Witness for C4: a timeout with no byte read yields the unchanged client
with `allow_parallel = false` and no pending prefix. -/
theorem hello_peek_contract_witness :
    read_with_timeout helloBuf helloWaitMillis ReadEvent.timeout =
      .ok (helloBuf, 0) ∧
    retriveDest sampleParse sampleClient ReadEvent.timeout =
      some { client := sampleClient, pending_data := none,
             allow_parallel := false } :=
  ⟨rfl, hello_peek_contract.2.2.1 sampleParse sampleClient ReadEvent.timeout
    helloBuf rfl⟩

/-- C6: in every serve trace, the accounting events are exactly one
`conn_open` on the chosen server's tag, then the copy, then exactly one
`conn_close` on the same tag whose error flag is true exactly when the copy
ended in error; no other tag receives a `conn_open`. -/
theorem serve_accounting_trace (tag : String)
    (kaLeft kaRight : Except String Unit)
    (pipeResult : Except String PipeAmt) :
    (ConnectedClient.serve tag kaLeft kaRight pipeResult).filter
        isAccountingEvent =
      [ServeEvent.connOpen tag, ServeEvent.pipeCopy,
       ServeEvent.connClose tag (exceptIsErr pipeResult)] := by
  cases kaLeft <;> cases kaRight <;> cases pipeResult <;> rfl

/-- C10: serve sets a 300-second keepalive idle timer on both sockets before
the copy; a keepalive failure produces the warn log exactly when one of the
two calls failed, and the copy still runs in every case. -/
theorem serve_keepalive (tag : String) (kaLeft kaRight : Except String Unit)
    (pipeResult : Except String PipeAmt) :
    keepaliveSecs = 300 ∧
    (ConnectedClient.serve tag kaLeft kaRight pipeResult).take 2 =
      [ServeEvent.setKeepalive true 300, ServeEvent.setKeepalive false 300] ∧
    ServeEvent.pipeCopy ∈ ConnectedClient.serve tag kaLeft kaRight pipeResult ∧
    (ServeEvent.warnKeepalive ∈
        ConnectedClient.serve tag kaLeft kaRight pipeResult ↔
      exceptIsErr (resultAnd kaLeft kaRight) = true) := by
  refine ⟨rfl, ?_, ?_, ?_⟩ <;>
    cases kaLeft <;> cases kaRight <;> cases pipeResult <;>
      simp [ConnectedClient.serve, resultAnd, exceptIsErr, keepaliveSecs]

/-- C7: the original-destination resolver uses the IPv4 recovery result first
and falls back to the IPv6 result only when IPv4 failed; when both fail the
client is dropped (after the warn log); and the outcome never depends on the
address family of the accepted socket. -/
theorem from_socket_family_order (s : SocketInfo) (list : List String) :
    (∀ a p, s.origDest4 = .ok a → s.peerAddr = .ok p →
      NewClient.from_socket s list =
        some { src := p, dest := destOfSockAddr (SockAddr.v4 a.1 a.2), list }) ∧
    (∀ e a p, s.origDest4 = .error e → s.origDest6 = .ok a →
      s.peerAddr = .ok p →
      NewClient.from_socket s list =
        some { src := p, dest := destOfSockAddr (SockAddr.v6 a.1 a.2), list }) ∧
    (∀ e f, s.origDest4 = .error e → s.origDest6 = .error f →
      NewClient.from_socket s list = none) ∧
    (∀ f g, NewClient.from_socket { s with family := f } list =
      NewClient.from_socket { s with family := g } list) := by
  refine ⟨?_, ?_, ?_, fun f g => rfl⟩
  · intro a p h4 hp
    simp [NewClient.from_socket, h4, hp, Except.map]
  · intro e a p h4 h6 hp
    simp [NewClient.from_socket, h4, h6, hp, Except.map]
  · intro e f h4 h6
    cases hp : s.peerAddr <;>
      simp [NewClient.from_socket, h4, h6, hp, Except.map]

/-- Sample accepted socket: an IPv6-family socket whose IPv4 original-dest
query succeeds with 1.2.3.4:80 and whose IPv6 query fails. -/
def sampleSocket : SocketInfo :=
  { family := Family.v6, peerAddr := .ok 7,
    origDest4 := .ok (16909060, 80), origDest6 := .error "ENOPROTOOPT" }

/-- Witness for C7: on `sampleSocket` the resolver yields the IPv4 original
destination even though the socket itself is IPv6. -/
theorem from_socket_family_order_witness :
    NewClient.from_socket sampleSocket ["a"] =
      some { src := 7, dest := destOfSockAddr (SockAddr.v4 16909060 80),
             list := ["a"] } :=
  (from_socket_family_order sampleSocket ["a"]).1 (16909060, 80) 7 rfl rfl

/-- C9: the older entry point's per-attempt connect timeout is 3 s without a
recent latency measurement and `max(3 s, 2·latency)` with one, hence never
below 3 s (times in milliseconds). -/
theorem attempt_wait_bounds :
    attemptWait none = 3000 ∧
    (∀ d, attemptWait (some d) = max 3000 (2 * d)) ∧
    (∀ o, 3000 ≤ attemptWait o) := by
  refine ⟨rfl, fun d => by simp [attemptWait, Nat.mul_comm], fun o => ?_⟩
  cases o <;> simp [attemptWait]

/-- C5 counterexample: in the older entry point, a copy that moved 10 tx and
5 rx bytes and then ended in an I/O error is closed with byte counters
(0, 0), not the (10, 5) actually transferred before the error. -/
theorem old_close_counters_counterexample :
    oldServeClose (pipingResult (10, 5) true) = (0, 0) ∧
    oldServeClose (pipingResult (10, 5) true) ≠ (10, 5) := by
  decide

/-- C5 amended: whenever the copy ends in an I/O error,
`ConnectedClient::serve` records `conn_close` with `error = true` on the
chosen upstream; the older entry point's close call reports byte counters
(0, 0) on error and the transferred counts only on success. -/
theorem splice_error_accounting (tag : String)
    (kaLeft kaRight : Except String Unit) (e : String) (t : Nat × Nat) :
    ServeEvent.connClose tag true ∈
      ConnectedClient.serve tag kaLeft kaRight (.error e) ∧
    oldServeClose (pipingResult t true) = (0, 0) ∧
    oldServeClose (pipingResult t false) = t := by
  refine ⟨?_, rfl, rfl⟩
  cases kaLeft <;> cases kaRight <;>
    simp [ConnectedClient.serve, resultAnd]

end Moproxy
